import Mathlib

/-!
Verification of the multi-engine bouncing-ball physics core
(`physics` module of the TikTok satisfying-ball simulation studio).

The JavaScript source is embedded shallowly over `ℝ`:
* machine floats become real numbers (the spec's properties are stated
  "in exact real arithmetic over the embedding");
* the mutable `state`/`ball` objects become immutable structures that are
  threaded explicitly;
* user-registered callbacks (`onExit`, `onWallHit`, `onBallCollision`)
  become optional Lean functions, and every invocation of a registered
  callback is recorded in an explicit event list;
* the frame-keyed `Map` used by the snapshot history becomes an
  insertion-ordered association list, which matches JavaScript `Map`
  iteration semantics for `set`, `get`, deletion and size.
-/

namespace BallSim

noncomputable section

open Real

/-- A ball record, mirroring the object literal built in `spawnBall`:
`{ id, x, y, vx, vy, r, color, alive, data }`.  The user data bag is an
association list standing for the plain JS object `ball.data`. -/
@[ext]
structure Ball where
  id : ℤ
  x : ℝ
  y : ℝ
  vx : ℝ
  vy : ℝ
  r : ℝ
  color : String
  alive : Bool
  data : List (String × String)

/-- Arena configuration record (`const arena = {...}`). -/
structure ArenaCfg where
  cx : ℝ
  cy : ℝ
  r : ℝ
  gapAngle : ℝ
  gapWidth : ℝ

/-- The arena constant: `cx: 540, cy: 960, r: Math.min(1080,1920)*0.44,
gapAngle: -Math.PI/2, gapWidth: 0.28`. -/
def arena : ArenaCfg :=
  { cx := 540
    cy := 960
    r := min 1080 1920 * 0.44
    gapAngle := -(Real.pi / 2)
    gapWidth := 0.28 }

/-- Arcade-style engine configuration (`physicsConfig.arcade` and
`physicsConfig.arcadeSimple` both carry these two angle bounds). -/
structure ArcadeCfg where
  minReflectionAngle : ℝ
  maxReflectionAngle : ℝ

/-- `physicsConfig.arcade`: min 15°, max 165°. -/
def physicsConfigArcade : ArcadeCfg :=
  { minReflectionAngle := 15, maxReflectionAngle := 165 }

/-- `physicsConfig.arcadeSimple`: the same two angle bounds as `arcade`. -/
def physicsConfigArcadeSimple : ArcadeCfg :=
  { minReflectionAngle := 15, maxReflectionAngle := 165 }

/-- `physicsConfig.realistic` (the fields the embedded functions read). -/
structure RealisticCfg where
  gravity : ℝ
  elasticity : ℝ
  airResistance : ℝ
  minVelocity : ℝ
  groundLevel : ℝ

/-- `physicsConfig.realistic` constant. -/
def physicsConfigRealistic : RealisticCfg :=
  { gravity := 980
    elasticity := 0.85
    airResistance := 0.99
    minVelocity := 5
    groundLevel := 0.9 }

/-- The user program (`state.program`): the optional wall-related callbacks.
A callback receives a mutable proxy of the ball; its net effect on the ball
is modelled as a function `Ball → Ball`. -/
structure Program where
  onExit : Option (Ball → Ball)
  onWallHit : Option (Ball → Ball)

/-- No user program registered (`state.program = null`). -/
def noProgram : Program := { onExit := none, onWallHit := none }

/-- Events observable from one `reflectWall` call: each entry records one
invocation of a registered user callback. -/
inductive WallEvent
  | exit
  | wallHit
deriving DecidableEq

/-- `Math.hypot(x, y)`. -/
def hypot (x y : ℝ) : ℝ := Real.sqrt (x ^ 2 + y ^ 2)

/-- `Math.atan2(y, x)`: the angle of the vector `(x, y)` in `(-π, π]`,
defined piecewise from `arctan` exactly as the IEEE function behaves on
the reals (signed zeros do not exist in `ℝ`). -/
def atan2 (y x : ℝ) : ℝ :=
  if 0 < x then Real.arctan (y / x)
  else if x < 0 then
    (if 0 ≤ y then Real.arctan (y / x) + Real.pi else Real.arctan (y / x) - Real.pi)
  else
    (if 0 < y then Real.pi / 2 else if y < 0 then -(Real.pi / 2) else 0)

/-- The two `while` loops
`while (deg > 180) deg -= 360; while (deg < -180) deg += 360;`
in closed form: the first loop subtracts `360` exactly
`⌈(deg − 180)/360⌉` times, the second then adds `360` exactly
`⌈(−180 − deg)/360⌉` times.  On the actual argument (an `atan2` value
scaled to degrees, hence already in `(-180, 180]`) both loops are the
identity. -/
def normDeg (deg : ℝ) : ℝ :=
  let d1 := if 180 < deg then deg - 360 * ⌈(deg - 180) / 360⌉ else deg
  if d1 < -180 then d1 + 360 * ⌈(-180 - d1) / 360⌉ else d1

/-- The reflection-angle constraint of the arcade engines
(`part_003`, lines 328-347): first the maximum-angle clamp on the
world-frame angle in degrees, then the minimum-angle clamp. -/
def clampReflectionDeg (cfg : ArcadeCfg) (reflectionAngleDeg : ℝ) : ℝ :=
  let c1 :=
    if cfg.maxReflectionAngle < reflectionAngleDeg then cfg.maxReflectionAngle
    else if reflectionAngleDeg < -cfg.maxReflectionAngle then -cfg.maxReflectionAngle
    else reflectionAngleDeg
  if |c1| < cfg.minReflectionAngle then
    (if 0 ≤ c1 then cfg.minReflectionAngle else -cfg.minReflectionAngle)
  else c1

/-- Lines 317-354 of `part_003`: compute the world-frame angle of the
mirror-reflected velocity, normalize, clamp, and rebuild the velocity at
the constrained angle only when the constraint moved the angle by more
than `0.1` degrees. -/
def arcadeWallVelocity (cfg : ArcadeCfg) (newVx newVy : ℝ) : ℝ × ℝ :=
  let reflectionAngleDeg := normDeg (atan2 newVy newVx * 180 / Real.pi)
  let speed := hypot newVx newVy
  let constrainedAngleDeg := clampReflectionDeg cfg reflectionAngleDeg
  if 0.1 < |constrainedAngleDeg - reflectionAngleDeg| then
    let constrainedAngleRad := constrainedAngleDeg * Real.pi / 180
    (Real.cos constrainedAngleRad * speed, Real.sin constrainedAngleRad * speed)
  else (newVx, newVy)

/-- Run an optional callback on a ball; the event list records whether the
callback was actually invoked (the source guards each invocation with
`state.program?.onX`). -/
def fireBallCb (cb : Option (Ball → Ball)) (ev : WallEvent) (b : Ball) :
    Ball × List WallEvent :=
  match cb with
  | none => (b, [])
  | some f => (f b, [ev])

/-- `ArcadePhysics.reflectWall` / `ArcadeSimplePhysics.reflectWall`
(`part_003`, lines 278-369 and 383-472; the two bodies are textual
duplicates differing only in which `physicsConfig` record they read).
Returns the updated ball, the boolean return value, and the list of user
callbacks that fired. -/
def reflectWallArcadeStyle (cfg : ArcadeCfg) (prog : Program) (ball : Ball) :
    Ball × Bool × List WallEvent :=
  let dx := ball.x - arena.cx
  let dy := ball.y - arena.cy
  let dist := hypot dx dy
  if dist + ball.r ≤ arena.r then (ball, false, [])
  else
    let ang := atan2 dy dx
    let d := atan2 (Real.sin (ang - arena.gapAngle)) (Real.cos (ang - arena.gapAngle))
    if |d| < arena.gapWidth / 2 then
      let fired := fireBallCb prog.onExit WallEvent.exit ball
      ({ fired.1 with x := arena.cx, y := arena.cy }, true, fired.2)
    else
      let nx := dx / dist
      let ny := dy / dist
      let overlap := dist + ball.r - arena.r
      let x1 := ball.x - nx * overlap
      let y1 := ball.y - ny * overlap
      let vdotn := ball.vx * nx + ball.vy * ny
      let newVx := ball.vx - 2 * vdotn * nx
      let newVy := ball.vy - 2 * vdotn * ny
      let v2 := arcadeWallVelocity cfg newVx newVy
      let moved := { ball with x := x1, y := y1, vx := v2.1, vy := v2.2 }
      let fired := fireBallCb prog.onWallHit WallEvent.wallHit moved
      (fired.1, true, fired.2)

/-- `ArcadePhysics.reflectWall` (reads `physicsConfig.arcade`). -/
def ArcadePhysics.reflectWall (prog : Program) (ball : Ball) :
    Ball × Bool × List WallEvent :=
  reflectWallArcadeStyle physicsConfigArcade prog ball

/-- `ArcadeSimplePhysics.reflectWall` (reads `physicsConfig.arcadeSimple`). -/
def ArcadeSimplePhysics.reflectWall (prog : Program) (ball : Ball) :
    Ball × Bool × List WallEvent :=
  reflectWallArcadeStyle physicsConfigArcadeSimple prog ball

/-- `RealisticPhysics.reflectWall` (`part_003`, lines 507-557): same
boundary and gap detection, mirror reflection scaled by the elasticity
factor, no angle clamp. -/
def RealisticPhysics.reflectWall (prog : Program) (ball : Ball) :
    Ball × Bool × List WallEvent :=
  let dx := ball.x - arena.cx
  let dy := ball.y - arena.cy
  let dist := hypot dx dy
  if dist + ball.r ≤ arena.r then (ball, false, [])
  else
    let ang := atan2 dy dx
    let d := atan2 (Real.sin (ang - arena.gapAngle)) (Real.cos (ang - arena.gapAngle))
    if |d| < arena.gapWidth / 2 then
      let fired := fireBallCb prog.onExit WallEvent.exit ball
      ({ fired.1 with x := arena.cx, y := arena.cy }, true, fired.2)
    else
      let nx := dx / dist
      let ny := dy / dist
      let overlap := dist + ball.r - arena.r
      let x1 := ball.x - nx * overlap
      let y1 := ball.y - ny * overlap
      let vdotn := ball.vx * nx + ball.vy * ny
      let e := physicsConfigRealistic.elasticity
      let moved := { ball with
        x := x1, y := y1
        vx := (ball.vx - 2 * vdotn * nx) * e
        vy := (ball.vy - 2 * vdotn * ny) * e }
      let fired := fireBallCb prog.onWallHit WallEvent.wallHit moved
      (fired.1, true, fired.2)

/-- Event observable from processing one ball-ball pair: one entry per
invocation of a registered `onBallCollision` callback. -/
inductive PairEvent
  | ballCollision
deriving DecidableEq

/-- Phase 1 velocity response of `handleCollisions` (`part_003`, lines
745-796) on the already-separated balls `a1`, `b1`: symmetric normal
momentum exchange (scaled by elasticity for `realistic`), or, for
`arcadeSimple`, per-ball reflection about the normal followed by a
rescale back to the pre-collision speed. -/
def pairVelocityResponse (engineName : String) (nx ny : ℝ) (a1 b1 : Ball) :
    Ball × Ball :=
  if engineName ≠ "arcadeSimple" then
    let va := a1.vx * nx + a1.vy * ny
    let vb := b1.vx * nx + b1.vy * ny
    let dv := vb - va
    let a2 := { a1 with vx := a1.vx + dv * nx, vy := a1.vy + dv * ny }
    let b2 := { b1 with vx := b1.vx - dv * nx, vy := b1.vy - dv * ny }
    if engineName = "realistic" then
      let e := physicsConfigRealistic.elasticity
      ({ a2 with vx := a2.vx * e, vy := a2.vy * e },
       { b2 with vx := b2.vx * e, vy := b2.vy * e })
    else (a2, b2)
  else
    let originalSpeedA := hypot a1.vx a1.vy
    let originalSpeedB := hypot b1.vx b1.vy
    let vaNormal := a1.vx * nx + a1.vy * ny
    let vbNormal := b1.vx * nx + b1.vy * ny
    let a2 := { a1 with vx := a1.vx - 2 * vaNormal * nx, vy := a1.vy - 2 * vaNormal * ny }
    let b2 := { b1 with vx := b1.vx - 2 * vbNormal * nx, vy := b1.vy - 2 * vbNormal * ny }
    let newSpeedA := hypot a2.vx a2.vy
    let newSpeedB := hypot b2.vx b2.vy
    let a3 := if 0 < newSpeedA then
        { a2 with vx := a2.vx * (originalSpeedA / newSpeedA),
                  vy := a2.vy * (originalSpeedA / newSpeedA) }
      else a2
    let b3 := if 0 < newSpeedB then
        { b2 with vx := b2.vx * (originalSpeedB / newSpeedB),
                  vy := b2.vy * (originalSpeedB / newSpeedB) }
      else b2
    (a3, b3)

/-- Phase 3 of `handleCollisions` (`part_003`, lines 812-845): if the
user callback changed a radius and the balls still overlap, apply a
second positional correction plus a small velocity nudge. -/
def pairRadiusChangeSeparation (engineName : String)
    (originalARadius originalBRadius : ℝ) (a4 b4 : Ball) : Ball × Ball :=
  if a4.r ≠ originalARadius ∨ b4.r ≠ originalBRadius then
    let newDx := b4.x - a4.x
    let newDy := b4.y - a4.y
    let newDist := hypot newDx newDy
    let newMinD := a4.r + b4.r
    if newDist < newMinD ∧ 1e-4 < newDist then
      let newNx := newDx / newDist
      let newNy := newDy / newDist
      let additionalOverlap := newMinD - newDist
      let newTotalR := a4.r + b4.r
      let newAShare := a4.r / newTotalR   -- newARatio in the source
      let newBShare := b4.r / newTotalR   -- newBRatio in the source
      let separationVelocity : ℝ := if engineName = "arcadeSimple" then 10 else 20
      ({ a4 with
          x := a4.x - newNx * additionalOverlap * newBShare
          y := a4.y - newNy * additionalOverlap * newBShare
          vx := a4.vx - newNx * separationVelocity * newBShare
          vy := a4.vy - newNy * separationVelocity * newBShare },
       { b4 with
          x := b4.x + newNx * additionalOverlap * newAShare
          y := b4.y + newNy * additionalOverlap * newAShare
          vx := b4.vx + newNx * separationVelocity * newAShare
          vy := b4.vy + newNy * separationVelocity * newAShare })
    else (a4, b4)
  else (a4, b4)

/-- The body of the inner double loop of `handleCollisions`
(`part_003`, lines 722-846), processing one unordered pair `(a, b)`:
the epsilon-guarded overlap test, the radius-proportional positional
correction, the engine-dependent velocity response
(`pairVelocityResponse`), the user `onBallCollision` callback, and the
radius-change re-separation pass (`pairRadiusChangeSeparation`).
`engineName` is the `state.physicsEngine` string; the callback models
the net effect of the user code on the two proxied balls. -/
def processPair (engineName : String)
    (onBallCollision : Option (Ball → Ball → Ball × Ball)) (a b : Ball) :
    Ball × Ball × List PairEvent :=
  let dx := b.x - a.x
  let dy := b.y - a.y
  let dist := hypot dx dy
  let minD := a.r + b.r
  if dist < minD ∧ 1e-4 < dist then
    let nx := dx / dist
    let ny := dy / dist
    let overlap := minD - dist
    let totalR := a.r + b.r
    let aShare := a.r / totalR   -- aRatio in the source
    let bShare := b.r / totalR   -- bRatio in the source
    let a1 := { a with x := a.x - nx * overlap * bShare, y := a.y - ny * overlap * bShare }
    let b1 := { b with x := b.x + nx * overlap * aShare, y := b.y + ny * overlap * aShare }
    let rsp := pairVelocityResponse engineName nx ny a1 b1
    let originalARadius := rsp.1.r
    let originalBRadius := rsp.2.r
    let afterCb :=
      match onBallCollision with
      | none => (rsp.1, rsp.2, ([] : List PairEvent))
      | some f =>
        let p := f rsp.1 rsp.2
        (p.1, p.2, [PairEvent.ballCollision])
    let final := pairRadiusChangeSeparation engineName originalARadius originalBRadius
      afterCb.1 afterCb.2.1
    (final.1, final.2, afterCb.2.2)
  else (a, b, [])

/-- The global simulation state fields captured and restored by the
snapshot system (`state.balls`, `state.nextId`, `state.t`, `state.score`,
`state.physicsEngine`, `state.doCollide`). -/
@[ext]
structure SimState where
  balls : List Ball
  nextId : ℤ
  t : ℝ
  score : ℝ
  physicsEngine : String
  doCollide : Bool

/-- One history entry as built by `createStateSnapshot`. -/
structure Snapshot where
  frameNumber : ℤ
  balls : List Ball
  nextId : ℤ
  t : ℝ
  score : ℝ
  physicsEngine : String
  doCollide : Bool
  timestamp : ℝ

/-- The per-ball deep copy performed by `createStateSnapshot` and
`restoreStateSnapshot`: every scalar field is copied and the data bag is
shallow-copied (`{ ...ball.data }`). -/
def copyBall (ball : Ball) : Ball :=
  { id := ball.id
    x := ball.x
    y := ball.y
    vx := ball.vx
    vy := ball.vy
    r := ball.r
    color := ball.color
    alive := ball.alive
    data := ball.data }

/-- `createStateSnapshot(frameNumber)` (`part_003`, lines 67-96).
`now` stands for the `performance.now()` capture timestamp. -/
def createStateSnapshot (s : SimState) (frameNumber : ℤ) (now : ℝ) : Snapshot :=
  { frameNumber := frameNumber
    balls := s.balls.map copyBall
    nextId := s.nextId
    t := s.t
    score := s.score
    physicsEngine := s.physicsEngine
    doCollide := s.doCollide
    timestamp := now }

/-- `restoreStateSnapshot(snapshot)` (`part_003`, lines 101-136): replaces
every captured field of the simulation state with fresh copies from the
snapshot and returns `snapshot.frameNumber`.  In the embedding the copy
cannot throw, so the `catch` branch returning `false` is unreachable. -/
def restoreStateSnapshot (snapshot : Snapshot) : SimState × ℤ :=
  ({ balls := snapshot.balls.map copyBall
     nextId := snapshot.nextId
     t := snapshot.t
     score := snapshot.score
     physicsEngine := snapshot.physicsEngine
     doCollide := snapshot.doCollide },
   snapshot.frameNumber)

/-- `SNAPSHOT_BUFFER_SIZE = 5000`. -/
def SNAPSHOT_BUFFER_SIZE : ℤ := 5000

/-- The `simulationHistory` map plus `maxSavedFrame`, modelled as an
insertion-ordered association list (JavaScript `Map` semantics). -/
structure History where
  entries : List (ℤ × Snapshot)
  maxSavedFrame : ℤ

/-- Initial/cleared history: empty map, `maxSavedFrame = -1`. -/
def emptyHistory : History := { entries := [], maxSavedFrame := -1 }

/-- `Map.prototype.set`: replace in place if the key exists, else append. -/
def mapSet (m : List (ℤ × Snapshot)) (k : ℤ) (v : Snapshot) : List (ℤ × Snapshot) :=
  if m.any (fun p => p.1 == k) then
    m.map (fun p => if p.1 == k then (k, v) else p)
  else m ++ [(k, v)]

/-- `Map.prototype.get` on the frame key. -/
def lookupFrame (m : List (ℤ × Snapshot)) (k : ℤ) : Option Snapshot :=
  (m.find? (fun p => p.1 == k)).map (fun p => p.2)

/-- `saveSimulationState(frameNumber)` (`part_003`, lines 141-167): store
the snapshot under its frame number, bump `maxSavedFrame`, and when the
map size exceeds `SNAPSHOT_BUFFER_SIZE` delete every entry whose frame is
below `maxSavedFrame - SNAPSHOT_BUFFER_SIZE + 1` (the deletion loop over
the map is a filter). -/
def saveSimulationState (frameNumber : ℤ) (s : SimState) (now : ℝ) (h : History) :
    History :=
  let snapshot := createStateSnapshot s frameNumber now
  let entries1 := mapSet h.entries frameNumber snapshot
  let maxF := max h.maxSavedFrame frameNumber
  if SNAPSHOT_BUFFER_SIZE < (entries1.length : ℤ) then
    let oldestFrameToKeep := maxF - SNAPSHOT_BUFFER_SIZE + 1
    { entries := entries1.filter (fun p => !decide (p.1 < oldestFrameToKeep))
      maxSavedFrame := maxF }
  else
    { entries := entries1, maxSavedFrame := maxF }

/-- `restoreSimulationState(targetFrame)` (`part_003`, lines 172-192):
negative frames and missing frames fail (`none`, state untouched); a hit
replaces the state via `restoreStateSnapshot` and returns the frame. -/
def restoreSimulationState (targetFrame : ℤ) (h : History) (s : SimState) :
    Option ℤ × SimState :=
  if targetFrame < 0 then (none, s)
  else
    match lookupFrame h.entries targetFrame with
    | none => (none, s)
    | some snapshot => (some targetFrame, (restoreStateSnapshot snapshot).1)

/-- Saving one snapshot per frame for frames `0..n`, starting from an
empty history; `st k` / `now k` are the simulation state and timestamp
when frame `k` is saved. -/
def saveUpTo (st : ℕ → SimState) (now : ℕ → ℝ) : ℕ → History
  | 0 => saveSimulationState 0 (st 0) (now 0) emptyHistory
  | n + 1 => saveSimulationState (↑(n + 1)) (st (n + 1)) (now (n + 1)) (saveUpTo st now n)

/-- The history entry produced for frame `k` in the `saveUpTo` scenario. -/
def frameSnap (st : ℕ → SimState) (now : ℕ → ℝ) (k : ℕ) : ℤ × Snapshot :=
  ((k : ℤ), createStateSnapshot (st k) (k : ℤ) (now k))

/-- Dot product of two plane vectors given componentwise. -/
def dot2 (ux uy vx vy : ℝ) : ℝ := ux * vx + uy * vy

/-- The absolute angle between two plane vectors, in `[0, π]`
(for nonzero vectors).  Used to state the spec's "absolute angular
deviation from the inward normal". -/
def angleBetween (ux uy vx vy : ℝ) : ℝ :=
  Real.arccos (dot2 ux uy vx vy / (hypot ux uy * hypot vx vy))

/-- The claim that the Arcade reflection-angle clamp is measured relative
to the inward wall normal: for every non-gap wall contact, if the
mirror-reflected velocity deviates from the inward normal by less than
the configured minimum angle, the outgoing velocity is at exactly the
minimum deviation, and if it deviates by more than the configured
maximum, the outgoing velocity is at exactly the maximum deviation. -/
def reflectionAngleClampClaim : Prop :=
  ∀ ball : Ball,
    ¬(hypot (ball.x - arena.cx) (ball.y - arena.cy) + ball.r ≤ arena.r) →
    ¬(|atan2 (Real.sin (atan2 (ball.y - arena.cy) (ball.x - arena.cx) - arena.gapAngle))
             (Real.cos (atan2 (ball.y - arena.cy) (ball.x - arena.cx) - arena.gapAngle))| <
        arena.gapWidth / 2) →
    (let dx := ball.x - arena.cx
     let dy := ball.y - arena.cy
     let dist := hypot dx dy
     let nInx := -(dx / dist)
     let nIny := -(dy / dist)
     let vdotn := ball.vx * (dx / dist) + ball.vy * (dy / dist)
     let rx := ball.vx - 2 * vdotn * (dx / dist)
     let ry := ball.vy - 2 * vdotn * (dy / dist)
     let vout := (ArcadePhysics.reflectWall noProgram ball).1
     (angleBetween rx ry nInx nIny < physicsConfigArcade.minReflectionAngle * Real.pi / 180 →
        angleBetween vout.vx vout.vy nInx nIny =
          physicsConfigArcade.minReflectionAngle * Real.pi / 180) ∧
     (physicsConfigArcade.maxReflectionAngle * Real.pi / 180 < angleBetween rx ry nInx nIny →
        angleBetween vout.vx vout.vy nInx nIny =
          physicsConfigArcade.maxReflectionAngle * Real.pi / 180))

/-- How the Arcade reflection clamp actually behaves (amended claim):
the clamp acts on the world-frame direction angle `θ` of the
mirror-reflected velocity (degrees from the positive x-axis, normalized
to `(-180, 180]`), not on the deviation from the inward wall normal, and
it takes effect only when it moves the angle by more than `0.1` degrees:
for `14.9 ≤ |θ| ≤ 165.1` the reflected velocity is kept unchanged, for
`|θ| < 14.9` the outgoing direction is set to exactly `±15` degrees
(the sign of `θ`, with `θ = 0` pushed to `+15`), and for `|θ| > 165.1`
it is set to exactly `±165` degrees, always at the reflected speed. -/
def worldFrameClampSpec (ball : Ball) : Prop :=
  let dx := ball.x - arena.cx
  let dy := ball.y - arena.cy
  let dist := hypot dx dy
  let nx := dx / dist
  let ny := dy / dist
  let vdotn := ball.vx * nx + ball.vy * ny
  let rx := ball.vx - 2 * vdotn * nx
  let ry := ball.vy - 2 * vdotn * ny
  let theta := normDeg (atan2 ry rx * 180 / Real.pi)
  let speed := hypot rx ry
  let vout := (ArcadePhysics.reflectWall noProgram ball).1
  (14.9 ≤ |theta| → |theta| ≤ 165.1 → vout.vx = rx ∧ vout.vy = ry) ∧
  (|theta| < 14.9 →
     vout.vx = Real.cos ((if 0 ≤ theta then (15 : ℝ) else -15) * Real.pi / 180) * speed ∧
     vout.vy = Real.sin ((if 0 ≤ theta then (15 : ℝ) else -15) * Real.pi / 180) * speed) ∧
  (165.1 < |theta| →
     vout.vx = Real.cos ((if 0 ≤ theta then (165 : ℝ) else -165) * Real.pi / 180) * speed ∧
     vout.vy = Real.sin ((if 0 ≤ theta then (165 : ℝ) else -165) * Real.pi / 180) * speed)

/-- The conclusions of the history-eviction claim for the scenario
"one save per frame for frames `0..N`": `restore(0)` fails,
`restore(N)` succeeds, no frame at or above `maxFrame - capacity + 1`
is evicted, a save whose resulting map fits in the capacity evicts
nothing, and a general save never evicts a frame at or above
`maxFrame - capacity + 1`. -/
def evictionBoundsHold (st : ℕ → SimState) (now : ℕ → ℝ) (N : ℕ) (s : SimState) : Prop :=
  (restoreSimulationState 0 (saveUpTo st now N) s).1 = none ∧
  (restoreSimulationState (N : ℤ) (saveUpTo st now N) s).1 = some (N : ℤ) ∧
  (∀ k : ℕ, (N : ℤ) - SNAPSHOT_BUFFER_SIZE + 1 ≤ (k : ℤ) → k ≤ N →
     lookupFrame (saveUpTo st now N).entries (k : ℤ) ≠ none) ∧
  (∀ (h : History) (f : ℤ) (s2 : SimState) (n2 : ℝ),
     ((mapSet h.entries f (createStateSnapshot s2 f n2)).length : ℤ) ≤ SNAPSHOT_BUFFER_SIZE →
     saveSimulationState f s2 n2 h =
       { entries := mapSet h.entries f (createStateSnapshot s2 f n2),
         maxSavedFrame := max h.maxSavedFrame f }) ∧
  (∀ (h : History) (f : ℤ) (s2 : SimState) (n2 : ℝ) (k : ℤ), k ≠ f →
     max h.maxSavedFrame f - SNAPSHOT_BUFFER_SIZE + 1 ≤ k →
     lookupFrame (saveSimulationState f s2 n2 h).entries k = lookupFrame h.entries k)

/-- Conclusion of the positional-correction claim for one processed pair:
ball `a` moves against the contact normal by `overlap * r_b/(r_a+r_b)`,
ball `b` moves along it by `overlap * r_a/(r_a+r_b)`, and the
post-correction center distance is exactly the sum of the radii. -/
def pairCorrectionSpec (engineName : String) (a b : Ball) : Prop :=
  let dist := hypot (b.x - a.x) (b.y - a.y)
  let nx := (b.x - a.x) / dist
  let ny := (b.y - a.y) / dist
  let overlap := a.r + b.r - dist
  let res := processPair engineName none a b
  res.1.x = a.x - nx * overlap * (b.r / (a.r + b.r)) ∧
  res.1.y = a.y - ny * overlap * (b.r / (a.r + b.r)) ∧
  res.2.1.x = b.x + nx * overlap * (a.r / (a.r + b.r)) ∧
  res.2.1.y = b.y + ny * overlap * (a.r / (a.r + b.r)) ∧
  hypot (res.2.1.x - res.1.x) (res.2.1.y - res.1.y) = a.r + b.r

/-- Conclusion of the ArcadeSimple collision-response claim for one
processed pair: each ball's outgoing velocity is its own velocity
reflected about the contact normal (independent of the other ball's
velocity, i.e. no momentum exchange), and each ball's speed after the
physical response equals its speed before the collision. -/
def arcadeSimpleResponseSpec (a b : Ball) : Prop :=
  let dist := hypot (b.x - a.x) (b.y - a.y)
  let nx := (b.x - a.x) / dist
  let ny := (b.y - a.y) / dist
  let res := processPair "arcadeSimple" none a b
  res.1.vx = a.vx - 2 * (a.vx * nx + a.vy * ny) * nx ∧
  res.1.vy = a.vy - 2 * (a.vx * nx + a.vy * ny) * ny ∧
  res.2.1.vx = b.vx - 2 * (b.vx * nx + b.vy * ny) * nx ∧
  res.2.1.vy = b.vy - 2 * (b.vx * nx + b.vy * ny) * ny ∧
  hypot res.1.vx res.1.vy = hypot a.vx a.vy ∧
  hypot res.2.1.vx res.2.1.vy = hypot b.vx b.vy

/-- A concrete simulation state used by witnesses. -/
def sampleState : SimState :=
  { balls := [], nextId := 1, t := 0, score := 0
    physicsEngine := "arcadeSimple", doCollide := false }

/-- Concrete ball in wall contact at the right of the arena gap
(angular position `π/2`, outside the gap at `-π/2`), used as the
explicit input of the reflection counterexample and witnesses. -/
def ballC2 : Ball :=
  { id := 1, x := 540, y := 1440, vx := 10, vy := 100, r := 15
    color := "red", alive := true, data := [] }

/-- Concrete ball in wall contact inside the gap (angular position
`-π/2`, the gap angle), used by the gap-exit witnesses. -/
def ballGap : Ball :=
  { id := 1, x := 540, y := 480, vx := 10, vy := 100, r := 15
    color := "red", alive := true, data := [] }

/-- A program with only an `onExit` callback registered (the identity
mutation), used by the gap-exit witness. -/
def progExitOnly : Program := { onExit := some (fun b => b), onWallHit := none }

/-- Concrete ball pair used by the collision witnesses. -/
def ballA : Ball :=
  { id := 1, x := 0, y := 0, vx := 50, vy := 0, r := 10
    color := "red", alive := true, data := [] }

/-- Second ball of the witness pair, overlapping `ballA`. -/
def ballB : Ball :=
  { id := 2, x := 15, y := 0, vx := 0, vy := 30, r := 10
    color := "blue", alive := true, data := [] }

/-- A ball exactly coincident with `ballA`, for the epsilon-guard witness. -/
def ballCoincident : Ball :=
  { id := 3, x := 0, y := 0, vx := -20, vy := 5, r := 10
    color := "green", alive := true, data := [] }

/-! ### Facts about the geometric helpers -/

lemma hypot_nonneg (x y : ℝ) : 0 ≤ hypot x y := Real.sqrt_nonneg _

lemma hypot_sq (x y : ℝ) : hypot x y ^ 2 = x ^ 2 + y ^ 2 :=
  Real.sq_sqrt (by positivity)

lemma hypot_x_zero (x : ℝ) : hypot x 0 = |x| := by
  simp [hypot, Real.sqrt_sq_eq_abs]

lemma hypot_components_zero (x y : ℝ) (h : hypot x y = 0) : x = 0 ∧ y = 0 := by
  have hs : x ^ 2 + y ^ 2 = 0 := by
    have := hypot_sq x y
    rw [h] at this
    simpa using this.symm
  constructor <;> nlinarith [sq_nonneg x, sq_nonneg y]

lemma unit_normal_sq (x y : ℝ) (h : hypot x y ≠ 0) :
    (x / hypot x y) ^ 2 + (y / hypot x y) ^ 2 = 1 := by
  have hs := hypot_sq x y
  field_simp
  linarith [hs]

lemma hypot_of_unit (x y : ℝ) (h : x ^ 2 + y ^ 2 = 1) : hypot x y = 1 := by
  rw [hypot, h, Real.sqrt_one]

lemma hypot_smul (c x y : ℝ) : hypot (c * x) (c * y) = |c| * hypot x y := by
  rw [hypot, hypot, show (c * x) ^ 2 + (c * y) ^ 2 = c ^ 2 * (x ^ 2 + y ^ 2) by ring,
    Real.sqrt_mul (sq_nonneg c), Real.sqrt_sq_eq_abs]

lemma reflect_norm_sq (vx vy nx ny : ℝ) (h : nx ^ 2 + ny ^ 2 = 1) :
    (vx - 2 * (vx * nx + vy * ny) * nx) ^ 2 + (vy - 2 * (vx * nx + vy * ny) * ny) ^ 2
      = vx ^ 2 + vy ^ 2 := by
  linear_combination (4 * (vx * nx + vy * ny) ^ 2) * h

lemma reflect_hypot (vx vy nx ny : ℝ) (h : nx ^ 2 + ny ^ 2 = 1) :
    hypot (vx - 2 * (vx * nx + vy * ny) * nx) (vy - 2 * (vx * nx + vy * ny) * ny)
      = hypot vx vy := by
  rw [hypot, hypot, reflect_norm_sq vx vy nx ny h]

/-! ### Snapshot round-trip (C1) and restore-miss (C9) -/

lemma copyBall_id (b : Ball) : copyBall b = b := rfl

lemma map_copyBall (l : List Ball) : l.map copyBall = l := by
  induction l with
  | nil => rfl
  | cons hd tl ih => simp [copyBall_id, ih]

/-- C1: for every simulation state and frame number `F`, restoring the
snapshot created by `createStateSnapshot` at frame `F` reproduces every
ball field (`id, x, y, vx, vy, r, color, alive`, and the data bag) and
every global counter (`nextId`, `t`, `score`, the physics variant and the
collision flag) exactly, with no recomputation. -/
theorem snapshot_roundtrip (s : SimState) (F : ℤ) (now : ℝ) :
    restoreStateSnapshot (createStateSnapshot s F now) = (s, F) := by
  unfold restoreStateSnapshot createStateSnapshot
  simp [map_copyBall]

/-- C9: restoring a frame with no stored snapshot (including every
negative frame) returns the failure sentinel `none` and leaves the
entire simulation state unchanged; no other frame is substituted. -/
theorem restore_miss_no_change (f : ℤ) (h : History) (s : SimState)
    (hmiss : f < 0 ∨ lookupFrame h.entries f = none) :
    restoreSimulationState f h s = (none, s) := by
  unfold restoreSimulationState
  by_cases hf : f < 0
  · rw [if_pos hf]
  · rw [if_neg hf]
    rcases hmiss with hf2 | hnone
    · exact absurd hf2 hf
    · rw [hnone]

/-- Witness for C9: restoring frame 3 from the empty history. -/
theorem restore_miss_no_change_witness :
    ((3 : ℤ) < 0 ∨ lookupFrame emptyHistory.entries 3 = none) ∧
    restoreSimulationState 3 emptyHistory sampleState = (none, sampleState) :=
  ⟨Or.inr rfl, restore_miss_no_change 3 emptyHistory sampleState (Or.inr rfl)⟩

/-! ### Epsilon guard (C8) -/

/-- C8: every pair of balls at center distance at most `1e-4` (including
exactly coincident centers) is treated as not colliding: both balls are
returned unchanged and no `onBallCollision` event fires, for any engine
and any registered callback (the separation division is in the branch
that is not taken). -/
theorem epsilon_guard_no_collision (engineName : String)
    (cb : Option (Ball → Ball → Ball × Ball)) (a b : Ball)
    (h : hypot (b.x - a.x) (b.y - a.y) ≤ 1e-4) :
    processPair engineName cb a b = (a, b, []) := by
  unfold processPair
  rw [if_neg]
  rintro ⟨-, h2⟩
  exact absurd h (not_le.mpr h2)

/-- Witness for C8: two exactly coincident balls. -/
theorem epsilon_guard_no_collision_witness :
    hypot (ballCoincident.x - ballA.x) (ballCoincident.y - ballA.y) ≤ 1e-4 ∧
    processPair "arcade" none ballA ballCoincident = (ballA, ballCoincident, []) := by
  have h : hypot (ballCoincident.x - ballA.x) (ballCoincident.y - ballA.y) ≤ 1e-4 := by
    simp only [ballCoincident, ballA]
    norm_num [hypot_x_zero]
  exact ⟨h, epsilon_guard_no_collision "arcade" none ballA ballCoincident h⟩

/-! ### Per-pair collision resolution (C5, C6) -/

lemma pairRadiusChangeSeparation_same (engineName : String) (a4 b4 : Ball) :
    pairRadiusChangeSeparation engineName a4.r b4.r a4 b4 = (a4, b4) := by
  unfold pairRadiusChangeSeparation
  rw [if_neg]
  push_neg
  exact ⟨rfl, rfl⟩

/-- With the overlap guard satisfied and no collision callback
registered, `processPair` is the positional correction followed by the
engine velocity response. -/
lemma processPair_none (engineName : String) (a b : Ball)
    (h : hypot (b.x - a.x) (b.y - a.y) < a.r + b.r ∧
         1e-4 < hypot (b.x - a.x) (b.y - a.y)) :
    processPair engineName none a b =
      (let dist := hypot (b.x - a.x) (b.y - a.y)
       let nx := (b.x - a.x) / dist
       let ny := (b.y - a.y) / dist
       let overlap := a.r + b.r - dist
       let a1 := { a with x := a.x - nx * overlap * (b.r / (a.r + b.r)),
                          y := a.y - ny * overlap * (b.r / (a.r + b.r)) }
       let b1 := { b with x := b.x + nx * overlap * (a.r / (a.r + b.r)),
                          y := b.y + ny * overlap * (a.r / (a.r + b.r)) }
       let rsp := pairVelocityResponse engineName nx ny a1 b1
       (rsp.1, rsp.2, [])) := by
  unfold processPair
  rw [if_pos h]
  exact congrArg (fun p => (p.1, p.2, ([] : List PairEvent)))
    (pairRadiusChangeSeparation_same engineName _ _)

lemma pairVelocityResponse_fst_pos (engineName : String) (nx ny : ℝ) (a1 b1 : Ball) :
    (pairVelocityResponse engineName nx ny a1 b1).1.x = a1.x ∧
    (pairVelocityResponse engineName nx ny a1 b1).1.y = a1.y := by
  unfold pairVelocityResponse
  split_ifs <;> simp [apply_ite (Ball.x), apply_ite (Ball.y)]

lemma pairVelocityResponse_snd_pos (engineName : String) (nx ny : ℝ) (a1 b1 : Ball) :
    (pairVelocityResponse engineName nx ny a1 b1).2.x = b1.x ∧
    (pairVelocityResponse engineName nx ny a1 b1).2.y = b1.y := by
  unfold pairVelocityResponse
  split_ifs <;> simp [apply_ite (Ball.x), apply_ite (Ball.y)]

/-- The ArcadeSimple velocity response on the first ball: reflecting and
then rescaling to the original speed is exactly the reflection (the
reflection already preserves the norm, so the rescale factor is 1). -/
lemma pairVelocityResponse_simple_fst (nx ny : ℝ) (a1 b1 : Ball)
    (hn : nx ^ 2 + ny ^ 2 = 1) :
    (pairVelocityResponse "arcadeSimple" nx ny a1 b1).1 =
      { a1 with vx := a1.vx - 2 * (a1.vx * nx + a1.vy * ny) * nx,
                vy := a1.vy - 2 * (a1.vx * nx + a1.vy * ny) * ny } := by
  unfold pairVelocityResponse
  rw [if_neg (by simp)]
  simp only []
  rw [reflect_hypot a1.vx a1.vy nx ny hn]
  rcases (hypot_nonneg a1.vx a1.vy).lt_or_eq with hlt | heq
  · rw [if_pos hlt, div_self (ne_of_gt hlt)]
    simp
  · obtain ⟨h1, h2⟩ := hypot_components_zero a1.vx a1.vy heq.symm
    rw [if_neg (by rw [← heq]; exact lt_irrefl 0)]

/-- The ArcadeSimple velocity response on the second ball. -/
lemma pairVelocityResponse_simple_snd (nx ny : ℝ) (a1 b1 : Ball)
    (hn : nx ^ 2 + ny ^ 2 = 1) :
    (pairVelocityResponse "arcadeSimple" nx ny a1 b1).2 =
      { b1 with vx := b1.vx - 2 * (b1.vx * nx + b1.vy * ny) * nx,
                vy := b1.vy - 2 * (b1.vx * nx + b1.vy * ny) * ny } := by
  unfold pairVelocityResponse
  rw [if_neg (by simp)]
  simp only []
  rw [reflect_hypot b1.vx b1.vy nx ny hn]
  rcases (hypot_nonneg b1.vx b1.vy).lt_or_eq with hlt | heq
  · rw [if_pos hlt, div_self (ne_of_gt hlt)]
    simp
  · obtain ⟨h1, h2⟩ := hypot_components_zero b1.vx b1.vy heq.symm
    rw [if_neg (by rw [← heq]; exact lt_irrefl 0)]

/-- C6: for every detected pair with center distance strictly between
the epsilon guard and the sum of radii, the positional correction moves
ball `a` against the contact normal by `overlap * r_b/(r_a+r_b)` and
ball `b` along it by `overlap * r_a/(r_a+r_b)` (the larger ball moves
less), and the post-correction center distance equals exactly
`r_a + r_b` in exact real arithmetic. -/
theorem pair_positional_correction (engineName : String) (a b : Ball)
    (h1 : 1e-4 < hypot (b.x - a.x) (b.y - a.y))
    (h2 : hypot (b.x - a.x) (b.y - a.y) < a.r + b.r) :
    pairCorrectionSpec engineName a b := by
  have hd0 : (0 : ℝ) < hypot (b.x - a.x) (b.y - a.y) := lt_trans (by norm_num) h1
  have hdne : hypot (b.x - a.x) (b.y - a.y) ≠ 0 := ne_of_gt hd0
  have hrs : (0 : ℝ) < a.r + b.r := lt_trans hd0 h2
  have hrsne : a.r + b.r ≠ 0 := ne_of_gt hrs
  have hn := unit_normal_sq (b.x - a.x) (b.y - a.y) hdne
  unfold pairCorrectionSpec
  rw [processPair_none engineName a b ⟨h2, h1⟩]
  simp only []
  obtain ⟨hax, hay⟩ := pairVelocityResponse_fst_pos engineName
    ((b.x - a.x) / hypot (b.x - a.x) (b.y - a.y))
    ((b.y - a.y) / hypot (b.x - a.x) (b.y - a.y))
    { a with
      x := a.x - (b.x - a.x) / hypot (b.x - a.x) (b.y - a.y) *
        (a.r + b.r - hypot (b.x - a.x) (b.y - a.y)) * (b.r / (a.r + b.r)),
      y := a.y - (b.y - a.y) / hypot (b.x - a.x) (b.y - a.y) *
        (a.r + b.r - hypot (b.x - a.x) (b.y - a.y)) * (b.r / (a.r + b.r)) }
    { b with
      x := b.x + (b.x - a.x) / hypot (b.x - a.x) (b.y - a.y) *
        (a.r + b.r - hypot (b.x - a.x) (b.y - a.y)) * (a.r / (a.r + b.r)),
      y := b.y + (b.y - a.y) / hypot (b.x - a.x) (b.y - a.y) *
        (a.r + b.r - hypot (b.x - a.x) (b.y - a.y)) * (a.r / (a.r + b.r)) }
  obtain ⟨hbx, hby⟩ := pairVelocityResponse_snd_pos engineName
    ((b.x - a.x) / hypot (b.x - a.x) (b.y - a.y))
    ((b.y - a.y) / hypot (b.x - a.x) (b.y - a.y))
    { a with
      x := a.x - (b.x - a.x) / hypot (b.x - a.x) (b.y - a.y) *
        (a.r + b.r - hypot (b.x - a.x) (b.y - a.y)) * (b.r / (a.r + b.r)),
      y := a.y - (b.y - a.y) / hypot (b.x - a.x) (b.y - a.y) *
        (a.r + b.r - hypot (b.x - a.x) (b.y - a.y)) * (b.r / (a.r + b.r)) }
    { b with
      x := b.x + (b.x - a.x) / hypot (b.x - a.x) (b.y - a.y) *
        (a.r + b.r - hypot (b.x - a.x) (b.y - a.y)) * (a.r / (a.r + b.r)),
      y := b.y + (b.y - a.y) / hypot (b.x - a.x) (b.y - a.y) *
        (a.r + b.r - hypot (b.x - a.x) (b.y - a.y)) * (a.r / (a.r + b.r)) }
  rw [hax, hay, hbx, hby]
  refine ⟨rfl, rfl, rfl, rfl, ?_⟩
  have hx : (b.x + (b.x - a.x) / hypot (b.x - a.x) (b.y - a.y) *
        (a.r + b.r - hypot (b.x - a.x) (b.y - a.y)) * (a.r / (a.r + b.r))) -
      (a.x - (b.x - a.x) / hypot (b.x - a.x) (b.y - a.y) *
        (a.r + b.r - hypot (b.x - a.x) (b.y - a.y)) * (b.r / (a.r + b.r))) =
      (a.r + b.r) * ((b.x - a.x) / hypot (b.x - a.x) (b.y - a.y)) := by
    field_simp
    ring
  have hy : (b.y + (b.y - a.y) / hypot (b.x - a.x) (b.y - a.y) *
        (a.r + b.r - hypot (b.x - a.x) (b.y - a.y)) * (a.r / (a.r + b.r))) -
      (a.y - (b.y - a.y) / hypot (b.x - a.x) (b.y - a.y) *
        (a.r + b.r - hypot (b.x - a.x) (b.y - a.y)) * (b.r / (a.r + b.r))) =
      (a.r + b.r) * ((b.y - a.y) / hypot (b.x - a.x) (b.y - a.y)) := by
    field_simp
    ring
  rw [hx, hy, hypot_smul, hypot_of_unit _ _ hn, abs_of_pos hrs, mul_one]

/-- Witness for C6: the concrete overlapping pair `ballA`, `ballB`. -/
theorem pair_positional_correction_witness :
    1e-4 < hypot (ballB.x - ballA.x) (ballB.y - ballA.y) ∧
    hypot (ballB.x - ballA.x) (ballB.y - ballA.y) < ballA.r + ballB.r ∧
    pairCorrectionSpec "arcade" ballA ballB := by
  have hd : hypot (ballB.x - ballA.x) (ballB.y - ballA.y) = 15 := by
    simp only [ballA, ballB]
    norm_num [hypot_x_zero]
  refine ⟨by rw [hd]; norm_num, by rw [hd]; show (15 : ℝ) < 10 + 10; norm_num, ?_⟩
  exact pair_positional_correction "arcade" ballA ballB
    (by rw [hd]; norm_num) (by rw [hd]; show (15 : ℝ) < 10 + 10; norm_num)

/-- C5: when the variant is ArcadeSimple, each ball in a resolved pair
has its velocity reflected about the contact normal independently of the
other ball (no relative-normal-velocity momentum exchange), and each
ball's speed immediately after the physical response equals its
pre-collision speed exactly. -/
theorem arcadeSimple_pair_response (a b : Ball)
    (h1 : 1e-4 < hypot (b.x - a.x) (b.y - a.y))
    (h2 : hypot (b.x - a.x) (b.y - a.y) < a.r + b.r) :
    arcadeSimpleResponseSpec a b := by
  have hd0 : (0 : ℝ) < hypot (b.x - a.x) (b.y - a.y) := lt_trans (by norm_num) h1
  have hdne : hypot (b.x - a.x) (b.y - a.y) ≠ 0 := ne_of_gt hd0
  have hn := unit_normal_sq (b.x - a.x) (b.y - a.y) hdne
  unfold arcadeSimpleResponseSpec
  rw [processPair_none "arcadeSimple" a b ⟨h2, h1⟩]
  simp only []
  rw [pairVelocityResponse_simple_fst _ _ _ _ hn,
    pairVelocityResponse_simple_snd _ _ _ _ hn]
  exact ⟨rfl, rfl, rfl, rfl, reflect_hypot a.vx a.vy _ _ hn,
    reflect_hypot b.vx b.vy _ _ hn⟩

/-- Witness for C5: the concrete overlapping pair `ballA`, `ballB`. -/
theorem arcadeSimple_pair_response_witness :
    1e-4 < hypot (ballB.x - ballA.x) (ballB.y - ballA.y) ∧
    hypot (ballB.x - ballA.x) (ballB.y - ballA.y) < ballA.r + ballB.r ∧
    arcadeSimpleResponseSpec ballA ballB := by
  have hd : hypot (ballB.x - ballA.x) (ballB.y - ballA.y) = 15 := by
    simp only [ballA, ballB]
    norm_num [hypot_x_zero]
  refine ⟨by rw [hd]; norm_num, by rw [hd]; show (15 : ℝ) < 10 + 10; norm_num, ?_⟩
  exact arcadeSimple_pair_response ballA ballB
    (by rw [hd]; norm_num) (by rw [hd]; show (15 : ℝ) < 10 + 10; norm_num)

/-! ### Evaluation facts for `atan2` and the arena -/

lemma hypot_zero_x (y : ℝ) : hypot 0 y = |y| := by
  simp [hypot, Real.sqrt_sq_eq_abs]

lemma arena_r_eq : arena.r = 475.2 := by
  show min (1080 : ℝ) 1920 * 0.44 = 475.2
  rw [min_eq_left (by norm_num : (1080 : ℝ) ≤ 1920)]
  norm_num

lemma atan2_pos_x (y x : ℝ) (hx : 0 < x) : atan2 y x = Real.arctan (y / x) :=
  if_pos hx

lemma atan2_neg_x (y x : ℝ) (hx : x < 0) (hy : 0 ≤ y) :
    atan2 y x = Real.arctan (y / x) + Real.pi := by
  unfold atan2
  rw [if_neg (by linarith), if_pos hx, if_pos hy]

lemma atan2_zero_x_pos (y : ℝ) (hy : 0 < y) : atan2 y 0 = Real.pi / 2 := by
  unfold atan2
  rw [if_neg (lt_irrefl 0), if_neg (lt_irrefl 0), if_pos hy]

lemma atan2_zero_x_neg (y : ℝ) (hy : y < 0) : atan2 y 0 = -(Real.pi / 2) := by
  unfold atan2
  rw [if_neg (lt_irrefl 0), if_neg (lt_irrefl 0), if_neg (not_lt.mpr hy.le), if_pos hy]

lemma atan2_zero_neg_one : atan2 0 (-1) = Real.pi := by
  rw [atan2_neg_x 0 (-1) (by norm_num) le_rfl]
  norm_num

lemma atan2_zero_one : atan2 0 1 = 0 := by
  rw [atan2_pos_x 0 1 one_pos]
  norm_num

/-! ### Gap-exit behaviour (C7, C10) -/

/-- In the gap branch, all three `reflectWall` variants fire only the
`onExit` callback, re-center the ball and return `true`. -/
lemma reflectWallArcadeStyle_gap (cfg : ArcadeCfg) (prog : Program) (ball : Ball)
    (hcontact : ¬(hypot (ball.x - arena.cx) (ball.y - arena.cy) + ball.r ≤ arena.r))
    (hgap : |atan2 (Real.sin (atan2 (ball.y - arena.cy) (ball.x - arena.cx) - arena.gapAngle))
                   (Real.cos (atan2 (ball.y - arena.cy) (ball.x - arena.cx) - arena.gapAngle))| <
        arena.gapWidth / 2) :
    reflectWallArcadeStyle cfg prog ball =
      ({ (fireBallCb prog.onExit WallEvent.exit ball).1 with x := arena.cx, y := arena.cy },
        true, (fireBallCb prog.onExit WallEvent.exit ball).2) := by
  unfold reflectWallArcadeStyle
  rw [if_neg hcontact, if_pos hgap]

lemma reflectWallRealistic_gap (prog : Program) (ball : Ball)
    (hcontact : ¬(hypot (ball.x - arena.cx) (ball.y - arena.cy) + ball.r ≤ arena.r))
    (hgap : |atan2 (Real.sin (atan2 (ball.y - arena.cy) (ball.x - arena.cx) - arena.gapAngle))
                   (Real.cos (atan2 (ball.y - arena.cy) (ball.x - arena.cx) - arena.gapAngle))| <
        arena.gapWidth / 2) :
    RealisticPhysics.reflectWall prog ball =
      ({ (fireBallCb prog.onExit WallEvent.exit ball).1 with x := arena.cx, y := arena.cy },
        true, (fireBallCb prog.onExit WallEvent.exit ball).2) := by
  unfold RealisticPhysics.reflectWall
  rw [if_neg hcontact, if_pos hgap]

/-- C7: for every ball whose wall contact falls within half the gap
width of the gap angle (shortest angular difference), one
`ArcadePhysics.reflectWall` call fires the registered `onExit` callback
exactly once (the event list is exactly `[exit]`, so `onWallHit` never
fires for this contact), repositions the ball to the arena center, and
returns `true`. -/
theorem gap_exit_fires_once (prog : Program) (f : Ball → Ball) (ball : Ball)
    (hreg : prog.onExit = some f)
    (hcontact : ¬(hypot (ball.x - arena.cx) (ball.y - arena.cy) + ball.r ≤ arena.r))
    (hgap : |atan2 (Real.sin (atan2 (ball.y - arena.cy) (ball.x - arena.cx) - arena.gapAngle))
                   (Real.cos (atan2 (ball.y - arena.cy) (ball.x - arena.cx) - arena.gapAngle))| <
        arena.gapWidth / 2) :
    (ArcadePhysics.reflectWall prog ball).2.2 = [WallEvent.exit] ∧
    (ArcadePhysics.reflectWall prog ball).1.x = arena.cx ∧
    (ArcadePhysics.reflectWall prog ball).1.y = arena.cy ∧
    (ArcadePhysics.reflectWall prog ball).2.1 = true := by
  unfold ArcadePhysics.reflectWall
  rw [reflectWallArcadeStyle_gap physicsConfigArcade prog ball hcontact hgap, hreg]
  simp [fireBallCb]

/-- C10: in the gap-exit branch with no `onExit` callback registered,
every physics variant's `reflectWall` changes only the ball's position
(set to the arena center): velocity, radius, color, id, liveness and the
data bag are unchanged. -/
theorem gap_exit_only_moves_position (prog : Program) (ball : Ball)
    (hnone : prog.onExit = none)
    (hcontact : ¬(hypot (ball.x - arena.cx) (ball.y - arena.cy) + ball.r ≤ arena.r))
    (hgap : |atan2 (Real.sin (atan2 (ball.y - arena.cy) (ball.x - arena.cx) - arena.gapAngle))
                   (Real.cos (atan2 (ball.y - arena.cy) (ball.x - arena.cx) - arena.gapAngle))| <
        arena.gapWidth / 2) :
    (ArcadePhysics.reflectWall prog ball).1 = { ball with x := arena.cx, y := arena.cy } ∧
    (ArcadeSimplePhysics.reflectWall prog ball).1 = { ball with x := arena.cx, y := arena.cy } ∧
    (RealisticPhysics.reflectWall prog ball).1 = { ball with x := arena.cx, y := arena.cy } := by
  unfold ArcadePhysics.reflectWall ArcadeSimplePhysics.reflectWall
  rw [reflectWallArcadeStyle_gap physicsConfigArcade prog ball hcontact hgap,
    reflectWallArcadeStyle_gap physicsConfigArcadeSimple prog ball hcontact hgap,
    reflectWallRealistic_gap prog ball hcontact hgap, hnone]
  simp [fireBallCb]

/-! ### Concrete gap-contact facts for the witnesses -/

lemma ballGap_dist : hypot (ballGap.x - arena.cx) (ballGap.y - arena.cy) = 480 := by
  show hypot ((540 : ℝ) - 540) ((480 : ℝ) - 960) = 480
  rw [show ((540 : ℝ) - 540) = 0 by norm_num, show ((480 : ℝ) - 960) = -480 by norm_num,
    hypot_zero_x]
  norm_num

lemma ballGap_contact :
    ¬(hypot (ballGap.x - arena.cx) (ballGap.y - arena.cy) + ballGap.r ≤ arena.r) := by
  rw [ballGap_dist, arena_r_eq]
  show ¬((480 : ℝ) + 15 ≤ 475.2)
  norm_num

lemma ballGap_angle : atan2 (ballGap.y - arena.cy) (ballGap.x - arena.cx) = -(Real.pi / 2) := by
  show atan2 ((480 : ℝ) - 960) ((540 : ℝ) - 540) = -(Real.pi / 2)
  rw [show ((480 : ℝ) - 960) = -480 by norm_num, show ((540 : ℝ) - 540) = 0 by norm_num]
  exact atan2_zero_x_neg (-480) (by norm_num)

lemma ballGap_gap :
    |atan2 (Real.sin (atan2 (ballGap.y - arena.cy) (ballGap.x - arena.cx) - arena.gapAngle))
           (Real.cos (atan2 (ballGap.y - arena.cy) (ballGap.x - arena.cx) - arena.gapAngle))| <
      arena.gapWidth / 2 := by
  rw [ballGap_angle]
  have h0 : -(Real.pi / 2) - arena.gapAngle = 0 := by
    show -(Real.pi / 2) - -(Real.pi / 2) = 0
    ring
  rw [h0, Real.sin_zero, Real.cos_zero, atan2_zero_one]
  show |(0 : ℝ)| < 0.28 / 2
  norm_num

/-- Witness for C7: `ballGap` with an `onExit` callback registered. -/
theorem gap_exit_fires_once_witness :
    progExitOnly.onExit = some (fun b => b) ∧
    ¬(hypot (ballGap.x - arena.cx) (ballGap.y - arena.cy) + ballGap.r ≤ arena.r) ∧
    (|atan2 (Real.sin (atan2 (ballGap.y - arena.cy) (ballGap.x - arena.cx) - arena.gapAngle))
            (Real.cos (atan2 (ballGap.y - arena.cy) (ballGap.x - arena.cx) - arena.gapAngle))| <
        arena.gapWidth / 2) ∧
    ((ArcadePhysics.reflectWall progExitOnly ballGap).2.2 = [WallEvent.exit] ∧
     (ArcadePhysics.reflectWall progExitOnly ballGap).1.x = arena.cx ∧
     (ArcadePhysics.reflectWall progExitOnly ballGap).1.y = arena.cy ∧
     (ArcadePhysics.reflectWall progExitOnly ballGap).2.1 = true) :=
  ⟨rfl, ballGap_contact, ballGap_gap,
    gap_exit_fires_once progExitOnly (fun b => b) ballGap rfl ballGap_contact ballGap_gap⟩

/-- Witness for C10: `ballGap` with no program registered. -/
theorem gap_exit_only_moves_position_witness :
    noProgram.onExit = none ∧
    ¬(hypot (ballGap.x - arena.cx) (ballGap.y - arena.cy) + ballGap.r ≤ arena.r) ∧
    (|atan2 (Real.sin (atan2 (ballGap.y - arena.cy) (ballGap.x - arena.cx) - arena.gapAngle))
            (Real.cos (atan2 (ballGap.y - arena.cy) (ballGap.x - arena.cx) - arena.gapAngle))| <
        arena.gapWidth / 2) ∧
    ((ArcadePhysics.reflectWall noProgram ballGap).1
        = { ballGap with x := arena.cx, y := arena.cy } ∧
     (ArcadeSimplePhysics.reflectWall noProgram ballGap).1
        = { ballGap with x := arena.cx, y := arena.cy } ∧
     (RealisticPhysics.reflectWall noProgram ballGap).1
        = { ballGap with x := arena.cx, y := arena.cy }) :=
  ⟨rfl, ballGap_contact, ballGap_gap,
    gap_exit_only_moves_position noProgram ballGap rfl ballGap_contact ballGap_gap⟩

/-! ### Arcade wall reflection preserves speed (C3) -/

/-- The clamp stage never changes the speed: either the velocity is kept,
or it is rebuilt as `speed * (cos θ, sin θ)`. -/
lemma arcadeWallVelocity_hypot (cfg : ArcadeCfg) (newVx newVy : ℝ) :
    hypot (arcadeWallVelocity cfg newVx newVy).1 (arcadeWallVelocity cfg newVx newVy).2
      = hypot newVx newVy := by
  unfold arcadeWallVelocity
  simp only []
  split_ifs with h
  · simp only []
    rw [mul_comm (Real.cos _) _, mul_comm (Real.sin _) _, hypot_smul,
      hypot_of_unit _ _ (Real.cos_sq_add_sin_sq _),
      abs_of_nonneg (hypot_nonneg _ _), mul_one]
  · rfl

/-- C3: for every Arcade-variant `reflectWall` call that results in a
non-gap wall contact (no user callback registered), the ball's speed
after the call equals its speed before the call exactly, including when
the angle clamp activates. -/
theorem arcade_wall_speed_preserved (ball : Ball)
    (hcontact : ¬(hypot (ball.x - arena.cx) (ball.y - arena.cy) + ball.r ≤ arena.r))
    (hgap : ¬(|atan2 (Real.sin (atan2 (ball.y - arena.cy) (ball.x - arena.cx) - arena.gapAngle))
                     (Real.cos (atan2 (ball.y - arena.cy) (ball.x - arena.cx) - arena.gapAngle))| <
        arena.gapWidth / 2)) :
    hypot (ArcadePhysics.reflectWall noProgram ball).1.vx
          (ArcadePhysics.reflectWall noProgram ball).1.vy
      = hypot ball.vx ball.vy := by
  unfold ArcadePhysics.reflectWall reflectWallArcadeStyle
  rw [if_neg hcontact, if_neg hgap]
  show hypot (arcadeWallVelocity physicsConfigArcade _ _).1
      (arcadeWallVelocity physicsConfigArcade _ _).2 = hypot ball.vx ball.vy
  rw [arcadeWallVelocity_hypot]
  rcases eq_or_ne (hypot (ball.x - arena.cx) (ball.y - arena.cy)) 0 with h0 | hne
  · rw [h0]
    simp
  · exact reflect_hypot ball.vx ball.vy _ _ (unit_normal_sq _ _ hne)

/-! ### Concrete non-gap wall-contact facts (for the C2 and C3 witnesses) -/

lemma ballC2_dist : hypot (ballC2.x - arena.cx) (ballC2.y - arena.cy) = 480 := by
  show hypot ((540 : ℝ) - 540) ((1440 : ℝ) - 960) = 480
  rw [show ((540 : ℝ) - 540) = 0 by norm_num, show ((1440 : ℝ) - 960) = 480 by norm_num,
    hypot_zero_x]
  norm_num

lemma ballC2_contact :
    ¬(hypot (ballC2.x - arena.cx) (ballC2.y - arena.cy) + ballC2.r ≤ arena.r) := by
  rw [ballC2_dist, arena_r_eq]
  show ¬((480 : ℝ) + 15 ≤ 475.2)
  norm_num

lemma ballC2_angle : atan2 (ballC2.y - arena.cy) (ballC2.x - arena.cx) = Real.pi / 2 := by
  show atan2 ((1440 : ℝ) - 960) ((540 : ℝ) - 540) = Real.pi / 2
  rw [show ((1440 : ℝ) - 960) = 480 by norm_num, show ((540 : ℝ) - 540) = 0 by norm_num]
  exact atan2_zero_x_pos 480 (by norm_num)

lemma ballC2_nongap :
    ¬(|atan2 (Real.sin (atan2 (ballC2.y - arena.cy) (ballC2.x - arena.cx) - arena.gapAngle))
             (Real.cos (atan2 (ballC2.y - arena.cy) (ballC2.x - arena.cx) - arena.gapAngle))| <
        arena.gapWidth / 2) := by
  rw [ballC2_angle]
  have h0 : Real.pi / 2 - arena.gapAngle = Real.pi := by
    show Real.pi / 2 - -(Real.pi / 2) = Real.pi
    ring
  rw [h0, Real.sin_pi, Real.cos_pi, atan2_zero_neg_one,
    abs_of_pos Real.pi_pos]
  show ¬(Real.pi < 0.28 / 2)
  have := Real.pi_gt_three
  intro hcon
  linarith

/-- Witness for C3: the concrete ball `ballC2` in non-gap wall contact. -/
theorem arcade_wall_speed_preserved_witness :
    (¬(hypot (ballC2.x - arena.cx) (ballC2.y - arena.cy) + ballC2.r ≤ arena.r)) ∧
    (¬(|atan2 (Real.sin (atan2 (ballC2.y - arena.cy) (ballC2.x - arena.cx) - arena.gapAngle))
              (Real.cos (atan2 (ballC2.y - arena.cy) (ballC2.x - arena.cx) - arena.gapAngle))| <
        arena.gapWidth / 2)) ∧
    hypot (ArcadePhysics.reflectWall noProgram ballC2).1.vx
          (ArcadePhysics.reflectWall noProgram ballC2).1.vy
      = hypot ballC2.vx ballC2.vy :=
  ⟨ballC2_contact, ballC2_nongap,
    arcade_wall_speed_preserved ballC2 ballC2_contact ballC2_nongap⟩

/-! ### The reflection-angle clamp is a world-frame clamp (C2) -/

lemma normDeg_id (x : ℝ) (h1 : -180 < x) (h2 : x ≤ 180) : normDeg x = x := by
  unfold normDeg
  simp only []
  rw [if_neg (not_lt.mpr h2), if_neg (not_lt.mpr h1.le)]

/-- Full case analysis of the clamp stage: it compares the world-frame
angle `θ` (in degrees) against the 15°/165° bounds and rebuilds the
velocity only when the clamped angle differs from `θ` by more than
`0.1` degrees. -/
lemma arcadeWallVelocity_cases (vx vy : ℝ) :
    (14.9 ≤ |normDeg (atan2 vy vx * 180 / Real.pi)| →
     |normDeg (atan2 vy vx * 180 / Real.pi)| ≤ 165.1 →
     arcadeWallVelocity physicsConfigArcade vx vy = (vx, vy)) ∧
    (|normDeg (atan2 vy vx * 180 / Real.pi)| < 14.9 →
     arcadeWallVelocity physicsConfigArcade vx vy =
       (Real.cos ((if 0 ≤ normDeg (atan2 vy vx * 180 / Real.pi) then (15 : ℝ) else -15)
            * Real.pi / 180) * hypot vx vy,
        Real.sin ((if 0 ≤ normDeg (atan2 vy vx * 180 / Real.pi) then (15 : ℝ) else -15)
            * Real.pi / 180) * hypot vx vy)) ∧
    (165.1 < |normDeg (atan2 vy vx * 180 / Real.pi)| →
     arcadeWallVelocity physicsConfigArcade vx vy =
       (Real.cos ((if 0 ≤ normDeg (atan2 vy vx * 180 / Real.pi) then (165 : ℝ) else -165)
            * Real.pi / 180) * hypot vx vy,
        Real.sin ((if 0 ≤ normDeg (atan2 vy vx * 180 / Real.pi) then (165 : ℝ) else -165)
            * Real.pi / 180) * hypot vx vy)) := by
  unfold arcadeWallVelocity clampReflectionDeg
  simp only [physicsConfigArcade]
  set θ := normDeg (atan2 vy vx * 180 / Real.pi) with hθ
  refine ⟨?_, ?_, ?_⟩
  · intro h1 h2
    by_cases hA : (165 : ℝ) < θ
    · have hθpos : (0 : ℝ) < θ := by linarith
      have hle : θ ≤ 165.1 := by
        have := le_abs_self θ
        linarith [abs_of_pos hθpos ▸ h2]
      rw [if_pos hA, if_neg (by norm_num : ¬(|(165 : ℝ)| < 15)), if_neg]
      rw [abs_of_nonpos (by linarith : (165 : ℝ) - θ ≤ 0)]
      linarith
    · by_cases hB : θ < (-165 : ℝ)
      · have hθneg : θ < 0 := by linarith
        have hge : -165.1 ≤ θ := by
          have h3 : |θ| = -θ := abs_of_neg hθneg
          linarith [h3 ▸ h2]
        rw [if_neg hA, if_pos hB, if_neg (by norm_num : ¬(|(-165 : ℝ)| < 15)), if_neg]
        rw [abs_of_nonneg (by linarith : (0 : ℝ) ≤ -165 - θ)]
        linarith
      · rw [if_neg hA, if_neg hB]
        by_cases hC : |θ| < 15
        · by_cases hD : (0 : ℝ) ≤ θ
          · have h3 : |θ| = θ := abs_of_nonneg hD
            rw [if_pos hC, if_pos hD, if_neg]
            rw [abs_of_nonneg (by linarith : (0 : ℝ) ≤ 15 - θ)]
            linarith
          · have h3 : |θ| = -θ := abs_of_neg (not_le.mp hD)
            rw [if_pos hC, if_neg hD, if_neg]
            rw [abs_of_nonpos (by linarith : (-15 : ℝ) - θ ≤ 0)]
            linarith
        · rw [if_neg hC, sub_self, abs_zero, if_neg (by norm_num : ¬((0.1 : ℝ) < 0))]
  · intro h
    have hA : ¬((165 : ℝ) < θ) := by linarith [le_abs_self θ]
    have hB : ¬(θ < (-165 : ℝ)) := by linarith [neg_abs_le θ]
    rw [if_neg hA, if_neg hB, if_pos (by linarith : |θ| < 15)]
    by_cases hD : (0 : ℝ) ≤ θ
    · have h3 : |θ| = θ := abs_of_nonneg hD
      rw [if_pos hD, if_pos]
      rw [abs_of_nonneg (by linarith : (0 : ℝ) ≤ 15 - θ)]
      linarith
    · have h3 : |θ| = -θ := abs_of_neg (not_le.mp hD)
      rw [if_neg hD, if_pos]
      rw [abs_of_nonpos (by linarith : (-15 : ℝ) - θ ≤ 0)]
      linarith
  · intro h
    by_cases hD : (0 : ℝ) ≤ θ
    · have h3 : |θ| = θ := abs_of_nonneg hD
      have hA : (165 : ℝ) < θ := by linarith
      rw [if_pos hA, if_neg (by norm_num : ¬(|(165 : ℝ)| < 15)), if_pos, if_pos hD]
      rw [abs_of_nonpos (by linarith : (165 : ℝ) - θ ≤ 0)]
      linarith
    · have h3 : |θ| = -θ := abs_of_neg (not_le.mp hD)
      have hB : θ < (-165 : ℝ) := by linarith
      rw [if_neg (by linarith : ¬((165 : ℝ) < θ)), if_pos hB,
        if_neg (by norm_num : ¬(|(-165 : ℝ)| < 15)), if_pos, if_neg hD]
      rw [abs_of_nonneg (by linarith : (0 : ℝ) ≤ -165 - θ)]
      linarith

/-- In the non-gap wall branch (no program registered), the outgoing
velocity of `ArcadePhysics.reflectWall` is the clamp stage applied to
the mirror reflection. -/
lemma reflectWall_wall_velocity (ball : Ball)
    (hcontact : ¬(hypot (ball.x - arena.cx) (ball.y - arena.cy) + ball.r ≤ arena.r))
    (hgap : ¬(|atan2 (Real.sin (atan2 (ball.y - arena.cy) (ball.x - arena.cx) - arena.gapAngle))
                     (Real.cos (atan2 (ball.y - arena.cy) (ball.x - arena.cx) - arena.gapAngle))| <
        arena.gapWidth / 2)) :
    (ArcadePhysics.reflectWall noProgram ball).1.vx
        = (arcadeWallVelocity physicsConfigArcade
            (ball.vx - 2 * (ball.vx * ((ball.x - arena.cx) /
                  hypot (ball.x - arena.cx) (ball.y - arena.cy))
                + ball.vy * ((ball.y - arena.cy) /
                  hypot (ball.x - arena.cx) (ball.y - arena.cy)))
              * ((ball.x - arena.cx) / hypot (ball.x - arena.cx) (ball.y - arena.cy)))
            (ball.vy - 2 * (ball.vx * ((ball.x - arena.cx) /
                  hypot (ball.x - arena.cx) (ball.y - arena.cy))
                + ball.vy * ((ball.y - arena.cy) /
                  hypot (ball.x - arena.cx) (ball.y - arena.cy)))
              * ((ball.y - arena.cy) / hypot (ball.x - arena.cx) (ball.y - arena.cy)))).1 ∧
    (ArcadePhysics.reflectWall noProgram ball).1.vy
        = (arcadeWallVelocity physicsConfigArcade
            (ball.vx - 2 * (ball.vx * ((ball.x - arena.cx) /
                  hypot (ball.x - arena.cx) (ball.y - arena.cy))
                + ball.vy * ((ball.y - arena.cy) /
                  hypot (ball.x - arena.cx) (ball.y - arena.cy)))
              * ((ball.x - arena.cx) / hypot (ball.x - arena.cx) (ball.y - arena.cy)))
            (ball.vy - 2 * (ball.vx * ((ball.x - arena.cx) /
                  hypot (ball.x - arena.cx) (ball.y - arena.cy))
                + ball.vy * ((ball.y - arena.cy) /
                  hypot (ball.x - arena.cx) (ball.y - arena.cy)))
              * ((ball.y - arena.cy) / hypot (ball.x - arena.cx) (ball.y - arena.cy)))).2 := by
  unfold ArcadePhysics.reflectWall reflectWallArcadeStyle
  rw [if_neg hcontact, if_neg hgap]
  exact ⟨rfl, rfl⟩

/-- C2 (amended): for every non-gap Arcade wall contact, the
reflection-angle clamp acts on the world-frame direction angle of the
mirror-reflected velocity, not on its deviation from the inward wall
normal, and only takes effect beyond the 0.1-degree guard band. -/
theorem arcade_clamp_world_frame (ball : Ball)
    (hcontact : ¬(hypot (ball.x - arena.cx) (ball.y - arena.cy) + ball.r ≤ arena.r))
    (hgap : ¬(|atan2 (Real.sin (atan2 (ball.y - arena.cy) (ball.x - arena.cx) - arena.gapAngle))
                     (Real.cos (atan2 (ball.y - arena.cy) (ball.x - arena.cx) - arena.gapAngle))| <
        arena.gapWidth / 2)) :
    worldFrameClampSpec ball := by
  unfold worldFrameClampSpec
  simp only []
  obtain ⟨hvx, hvy⟩ := reflectWall_wall_velocity ball hcontact hgap
  rw [hvx, hvy]
  refine ⟨fun h1 h2 => ?_, fun h => ?_, fun h => ?_⟩
  · have hc := (arcadeWallVelocity_cases _ _).1 h1 h2
    exact ⟨by rw [hc], by rw [hc]⟩
  · have hc := (arcadeWallVelocity_cases _ _).2.1 h
    exact ⟨by rw [hc], by rw [hc]⟩
  · have hc := (arcadeWallVelocity_cases _ _).2.2 h
    exact ⟨by rw [hc], by rw [hc]⟩

/-- Witness for the amended C2 at the concrete contact `ballC2`. -/
theorem arcade_clamp_world_frame_witness :
    (¬(hypot (ballC2.x - arena.cx) (ballC2.y - arena.cy) + ballC2.r ≤ arena.r)) ∧
    (¬(|atan2 (Real.sin (atan2 (ballC2.y - arena.cy) (ballC2.x - arena.cx) - arena.gapAngle))
              (Real.cos (atan2 (ballC2.y - arena.cy) (ballC2.x - arena.cx) - arena.gapAngle))| <
        arena.gapWidth / 2)) ∧
    worldFrameClampSpec ballC2 :=
  ⟨ballC2_contact, ballC2_nongap,
    arcade_clamp_world_frame ballC2 ballC2_contact ballC2_nongap⟩

/-! ### The clamp is not measured from the inward normal: counterexample -/

lemma arctan_ten_pos : (0 : ℝ) < Real.arctan 10 := by
  rw [← Real.arctan_zero]
  exact Real.arctan_strictMono (by norm_num)

lemma arctan_ten_gt : Real.pi / 4 < Real.arctan 10 := by
  rw [← Real.arctan_one]
  exact Real.arctan_strictMono (by norm_num)

lemma theta_cex_neg : -Real.arctan 10 * 180 / Real.pi < 0 := by
  have h := div_pos (mul_pos arctan_ten_pos (by norm_num : (0 : ℝ) < 180)) Real.pi_pos
  have hrw : -Real.arctan 10 * 180 / Real.pi = -(Real.arctan 10 * 180 / Real.pi) := by ring
  rw [hrw]
  linarith

lemma theta_cex_gt : (-90 : ℝ) < -Real.arctan 10 * 180 / Real.pi := by
  have h : Real.arctan 10 * 180 / Real.pi < 90 := by
    rw [div_lt_iff Real.pi_pos]
    nlinarith [Real.arctan_lt_pi_div_two 10, Real.pi_pos]
  have hrw : -Real.arctan 10 * 180 / Real.pi = -(Real.arctan 10 * 180 / Real.pi) := by ring
  rw [hrw]
  linarith

lemma theta_cex_min : (15 : ℝ) ≤ |(-Real.arctan 10 * 180 / Real.pi)| := by
  have hrw : -Real.arctan 10 * 180 / Real.pi = -(Real.arctan 10 * 180 / Real.pi) := by ring
  have habs : |(-Real.arctan 10 * 180 / Real.pi)| = Real.arctan 10 * 180 / Real.pi := by
    rw [hrw, abs_neg, abs_of_pos (div_pos (mul_pos arctan_ten_pos (by norm_num)) Real.pi_pos)]
  rw [habs, le_div_iff Real.pi_pos]
  nlinarith [arctan_ten_gt, Real.pi_pos]

lemma clamp_theta_cex :
    clampReflectionDeg physicsConfigArcade (-Real.arctan 10 * 180 / Real.pi)
      = -Real.arctan 10 * 180 / Real.pi := by
  unfold clampReflectionDeg
  simp only [physicsConfigArcade]
  rw [if_neg (by linarith [theta_cex_neg] : ¬((165 : ℝ) < -Real.arctan 10 * 180 / Real.pi)),
    if_neg (by linarith [theta_cex_gt] : ¬(-Real.arctan 10 * 180 / Real.pi < (-165 : ℝ))),
    if_neg (by linarith [theta_cex_min] : ¬(|(-Real.arctan 10 * 180 / Real.pi)| < 15))]

/-- On the mirror-reflected velocity `(10, -100)` the clamp does not
change anything: the world-frame angle is about `-84.3°`. -/
lemma arcadeWallVelocity_eval :
    arcadeWallVelocity physicsConfigArcade 10 (-100) = (10, -100) := by
  have hatan : atan2 (-100 : ℝ) 10 = -Real.arctan 10 := by
    rw [atan2_pos_x (-100) 10 (by norm_num),
      show ((-100 : ℝ) / 10) = -10 by norm_num, Real.arctan_neg]
  unfold arcadeWallVelocity
  simp only []
  rw [hatan, normDeg_id _ (by linarith [theta_cex_gt]) (by linarith [theta_cex_neg]),
    clamp_theta_cex, sub_self, abs_zero, if_neg (by norm_num : ¬((0.1 : ℝ) < 0))]

/-- The outgoing velocity of the counterexample contact: unchanged by
the clamp stage. -/
lemma ballC2_vout :
    (ArcadePhysics.reflectWall noProgram ballC2).1.vx = 10 ∧
    (ArcadePhysics.reflectWall noProgram ballC2).1.vy = -100 := by
  obtain ⟨hvx, hvy⟩ := reflectWall_wall_velocity ballC2 ballC2_contact ballC2_nongap
  constructor
  · rw [hvx, ballC2_dist]
    norm_num [ballC2, arena, arcadeWallVelocity_eval]
  · rw [hvy, ballC2_dist]
    norm_num [ballC2, arena, arcadeWallVelocity_eval]

lemma hypot_cex : hypot 10 (-100) = Real.sqrt 10100 := by
  unfold hypot
  norm_num

lemma hypot_unit_down : hypot 0 (-1) = 1 := by
  rw [hypot_zero_x]
  norm_num

lemma sqrt_10100_pos : (0 : ℝ) < Real.sqrt 10100 := Real.sqrt_pos.mpr (by norm_num)

lemma cos_pi_div_twelve_sq :
    Real.cos (Real.pi / 12) ^ 2 = 1 / 2 + Real.sqrt 3 / 4 := by
  have h := Real.cos_sq (Real.pi / 12)
  rw [show 2 * (Real.pi / 12) = Real.pi / 6 by ring, Real.cos_pi_div_six] at h
  rw [h]
  ring

lemma cex_ratio_le_one : 100 / Real.sqrt 10100 ≤ 1 := by
  rw [div_le_one sqrt_10100_pos,
    show (100 : ℝ) = Real.sqrt (100 ^ 2) from (Real.sqrt_sq (by norm_num)).symm]
  apply Real.sqrt_le_sqrt
  norm_num

/-- The cosine of the deviation of `(10, -100)` from the inward normal
`(0, -1)` is `100/√10100 ≈ 0.995`, strictly above `cos 15°`. -/
lemma cos_lt_cex_ratio : Real.cos (Real.pi / 12) < 100 / Real.sqrt 10100 := by
  have hc0 : 0 ≤ Real.cos (Real.pi / 12) := by
    apply Real.cos_nonneg_of_mem_Icc
    constructor
    · linarith [Real.pi_pos]
    · linarith [Real.pi_pos]
  have h3 : Real.sqrt 3 < 198 / 101 := by
    refine (Real.sqrt_lt' (by norm_num)).mpr ?_
    norm_num
  have hsq : Real.cos (Real.pi / 12) ^ 2 < (100 / Real.sqrt 10100) ^ 2 := by
    rw [cos_pi_div_twelve_sq, div_pow, Real.sq_sqrt (by norm_num : (0 : ℝ) ≤ 10100)]
    nlinarith [h3]
  exact lt_of_pow_lt_pow_left 2 (by positivity) hsq

lemma arccos_cex_lt : Real.arccos (100 / Real.sqrt 10100) < Real.pi / 12 := by
  have h12 : Real.arccos (Real.cos (Real.pi / 12)) = Real.pi / 12 :=
    Real.arccos_cos (by positivity) (by linarith [Real.pi_pos])
  rw [← h12]
  refine Real.strictAntiOn_arccos ?_ ?_ cos_lt_cex_ratio
  · exact ⟨Real.neg_one_le_cos _, Real.cos_le_one _⟩
  · have hnn : (0 : ℝ) ≤ 100 / Real.sqrt 10100 := by positivity
    exact ⟨by linarith, cex_ratio_le_one⟩

lemma angleBetween_cex :
    angleBetween 10 (-100) 0 (-1) = Real.arccos (100 / Real.sqrt 10100) := by
  unfold angleBetween dot2
  rw [hypot_cex, hypot_unit_down]
  norm_num

/-- C2 (counterexample): the claim that the Arcade clamp is measured
relative to the inward wall normal is false.  At the concrete contact
`ballC2` the mirror-reflected velocity `(10, -100)` deviates from the
inward normal `(0, -1)` by `arccos(100/√10100) ≈ 5.7° < 15°`, yet the
code leaves the velocity unchanged instead of pushing it out to exactly
15° from the normal (the code clamps the world-frame angle `≈ -84.3°`,
which is within its `[15°, 165°]` band). -/
theorem arcade_clamp_not_normal_relative : ¬ reflectionAngleClampClaim := by
  intro hclaim
  have h := hclaim ballC2 ballC2_contact ballC2_nongap
  simp only [] at h
  obtain ⟨hvx, hvy⟩ := ballC2_vout
  rw [ballC2_dist, hvx, hvy] at h
  have e1 : ballC2.vx - 2 * (ballC2.vx * ((ballC2.x - arena.cx) / 480)
      + ballC2.vy * ((ballC2.y - arena.cy) / 480)) * ((ballC2.x - arena.cx) / 480)
      = 10 := by
    norm_num [ballC2, arena]
  have e2 : ballC2.vy - 2 * (ballC2.vx * ((ballC2.x - arena.cx) / 480)
      + ballC2.vy * ((ballC2.y - arena.cy) / 480)) * ((ballC2.y - arena.cy) / 480)
      = -100 := by
    norm_num [ballC2, arena]
  have e3 : -((ballC2.x - arena.cx) / 480) = 0 := by
    norm_num [ballC2, arena]
  have e4 : -((ballC2.y - arena.cy) / 480) = -1 := by
    norm_num [ballC2, arena]
  rw [e1, e2, e3, e4] at h
  have hlt : angleBetween 10 (-100) 0 (-1)
      < physicsConfigArcade.minReflectionAngle * Real.pi / 180 := by
    rw [angleBetween_cex,
      show physicsConfigArcade.minReflectionAngle * Real.pi / 180 = Real.pi / 12 by
        show (15 : ℝ) * Real.pi / 180 = Real.pi / 12
        ring]
    exact arccos_cex_lt
  exact absurd (h.1 hlt) (ne_of_lt hlt)

/-! ### History eviction bounds (C4) -/

lemma lookupFrame_cons (p : ℤ × Snapshot) (l : List (ℤ × Snapshot)) (k : ℤ) :
    lookupFrame (p :: l) k = if p.1 = k then some p.2 else lookupFrame l k := by
  unfold lookupFrame
  by_cases h : p.1 = k
  · rw [List.find?_cons_of_pos _ (by simpa using h), if_pos h]
    rfl
  · rw [List.find?_cons_of_neg _ (by simpa using h), if_neg h]

lemma mapSet_not_mem (m : List (ℤ × Snapshot)) (k : ℤ) (v : Snapshot)
    (h : ∀ p ∈ m, p.1 ≠ k) : mapSet m k v = m ++ [(k, v)] := by
  have hc : ¬(m.any (fun p => p.1 == k) = true) := by
    rw [List.any_eq_true]
    rintro ⟨p, hp, hpk⟩
    exact h p hp (by simpa using hpk)
  unfold mapSet
  rw [if_neg hc]

lemma find?_mapReplace (m : List (ℤ × Snapshot)) (f k : ℤ) (v : Snapshot) (hne : k ≠ f) :
    (m.map (fun p => if p.1 == f then (f, v) else p)).find? (fun p => p.1 == k)
      = m.find? (fun p => p.1 == k) := by
  induction m with
  | nil => rfl
  | cons hd tl ih =>
    rw [List.map_cons]
    by_cases hf : hd.1 = f
    · rw [if_pos (by simpa using hf)]
      rw [List.find?_cons_of_neg _ (by simp; exact fun e => hne e.symm),
        List.find?_cons_of_neg _ (by simp [hf]; exact fun e => hne e.symm), ih]
    · rw [if_neg (by simpa using hf)]
      by_cases hk : hd.1 = k
      · rw [List.find?_cons_of_pos _ (by simpa using hk),
          List.find?_cons_of_pos _ (by simpa using hk)]
      · rw [List.find?_cons_of_neg _ (by simpa using hk),
          List.find?_cons_of_neg _ (by simpa using hk), ih]

lemma lookupFrame_mapSet_ne (m : List (ℤ × Snapshot)) (f k : ℤ) (v : Snapshot)
    (hne : k ≠ f) : lookupFrame (mapSet m f v) k = lookupFrame m k := by
  unfold mapSet
  split_ifs with hmem
  · unfold lookupFrame
    rw [find?_mapReplace m f k v hne]
  · unfold lookupFrame
    rw [List.find?_append,
      show List.find? (fun p => p.1 == k) [(f, v)] = none from by
        rw [List.find?_cons_of_neg _ (by simp; exact fun e => hne e.symm)]
        rfl,
      Option.or_none]

lemma find?_filter_keep (l : List (ℤ × Snapshot)) (q : ℤ × Snapshot → Bool) (k : ℤ)
    (h : ∀ p : ℤ × Snapshot, p.1 = k → q p = true) :
    (l.filter q).find? (fun p => p.1 == k) = l.find? (fun p => p.1 == k) := by
  induction l with
  | nil => rfl
  | cons hd tl ih =>
    by_cases hq : q hd = true
    · rw [List.filter_cons_of_pos hq]
      by_cases hk : hd.1 = k
      · rw [List.find?_cons_of_pos _ (by simpa using hk),
          List.find?_cons_of_pos _ (by simpa using hk)]
      · rw [List.find?_cons_of_neg _ (by simpa using hk),
          List.find?_cons_of_neg _ (by simpa using hk), ih]
    · have hk : hd.1 ≠ k := fun e => hq (h hd e)
      rw [List.filter_cons_of_neg hq, List.find?_cons_of_neg _ (by simpa using hk), ih]

lemma lookupFrame_filter_keep (l : List (ℤ × Snapshot)) (q : ℤ × Snapshot → Bool) (k : ℤ)
    (h : ∀ p : ℤ × Snapshot, p.1 = k → q p = true) :
    lookupFrame (l.filter q) k = lookupFrame l k := by
  unfold lookupFrame
  rw [find?_filter_keep l q k h]

lemma lookupFrame_range'_map (st : ℕ → SimState) (now : ℕ → ℝ) :
    ∀ (len a k : ℕ),
      lookupFrame ((List.range' a len).map (frameSnap st now)) (k : ℤ) =
        if a ≤ k ∧ k < a + len then
          some (createStateSnapshot (st k) (k : ℤ) (now k))
        else none := by
  intro len
  induction len with
  | zero =>
    intro a k
    rw [List.range'_zero]
    rw [if_neg (by omega)]
    rfl
  | succ n ih =>
    intro a k
    rw [List.range'_succ, List.map_cons, lookupFrame_cons]
    by_cases hak : a = k
    · subst hak
      rw [if_pos (by rfl), if_pos (by omega)]
      rfl
    · rw [if_neg (by simpa [frameSnap] using fun hc : (a : ℤ) = (k : ℤ) => hak (by exact_mod_cast hc))]
      rw [ih (a + 1) k]
      rw [if_congr (by omega : ((a + 1 ≤ k ∧ k < a + 1 + n) ↔ (a ≤ k ∧ k < a + (n + 1)))) rfl rfl]

/-- Closed form of the history after saving frames `0..n` one by one:
the entries are exactly the last `min n 4999 + 1` frames in increasing
frame order, and `maxSavedFrame` is `n`. -/
lemma saveUpTo_eq (st : ℕ → SimState) (now : ℕ → ℝ) :
    ∀ n : ℕ, saveUpTo st now n =
      { entries := (List.range' (n - min n 4999) (min n 4999 + 1)).map (frameSnap st now),
        maxSavedFrame := (n : ℤ) } := by
  intro n
  induction n with
  | zero =>
    show saveSimulationState 0 (st 0) (now 0) emptyHistory = _
    unfold saveSimulationState emptyHistory
    simp only []
    rw [mapSet_not_mem _ _ _ (by intro p hp; simp at hp), List.nil_append]
    rw [if_neg (by norm_num [SNAPSHOT_BUFFER_SIZE])]
    have h1 : (0 : ℕ) - min 0 4999 = 0 := by omega
    have h2 : min 0 4999 + 1 = 1 := by omega
    rw [h1, h2, show List.range' 0 1 = [0] from rfl, List.map_cons]
    rw [show max (-1 : ℤ) 0 = 0 from by norm_num]
    rfl
  | succ n ih =>
    show saveSimulationState (↑(n + 1)) (st (n + 1)) (now (n + 1)) (saveUpTo st now n) = _
    rw [ih]
    unfold saveSimulationState
    simp only []
    have hnotmem : ∀ p ∈ (List.range' (n - min n 4999) (min n 4999 + 1)).map (frameSnap st now),
        p.1 ≠ ((n + 1 : ℕ) : ℤ) := by
      intro p hp
      obtain ⟨k, hk, rfl⟩ := List.mem_map.mp hp
      have hk2 := List.mem_range'_1.mp hk
      show (k : ℤ) ≠ ((n + 1 : ℕ) : ℤ)
      have : k ≠ n + 1 := by omega
      exact_mod_cast this
    rw [mapSet_not_mem _ _ _ hnotmem]
    have hmaxrw : max ((n : ℕ) : ℤ) ((n + 1 : ℕ) : ℤ) = ((n + 1 : ℕ) : ℤ) :=
      max_eq_right (by exact_mod_cast Nat.le_succ n)
    rw [hmaxrw]
    have happ : (List.range' (n - min n 4999) (min n 4999 + 1)).map (frameSnap st now)
        ++ [(((n + 1 : ℕ) : ℤ),
              createStateSnapshot (st (n + 1)) ((n + 1 : ℕ) : ℤ) (now (n + 1)))]
        = (List.range' (n - min n 4999) (min n 4999 + 1 + 1)).map (frameSnap st now) := by
      conv_rhs => rw [List.range'_concat, List.map_append]
      congr 1
      rw [show (n - min n 4999) + 1 * (min n 4999 + 1) = n + 1 from by omega]
      rfl
    rw [happ]
    have hlen : (((List.range' (n - min n 4999) (min n 4999 + 1 + 1)).map
        (frameSnap st now)).length : ℤ) = ((min n 4999 : ℕ) : ℤ) + 2 := by
      rw [List.length_map, List.length_range']
      push_cast
      ring
    by_cases hn : n ≤ 4998
    · rw [if_neg (by rw [hlen]; norm_num [SNAPSHOT_BUFFER_SIZE]; omega)]
      have e1 : n - min n 4999 = (n + 1) - min (n + 1) 4999 := by omega
      have e2 : min n 4999 + 1 + 1 = min (n + 1) 4999 + 1 := by omega
      rw [e1, e2]
    · have hmin : min n 4999 = 4999 := by omega
      rw [if_pos (by rw [hlen, hmin]; norm_num [SNAPSHOT_BUFFER_SIZE])]
      have hsplit : List.range' (n - min n 4999) (min n 4999 + 1 + 1)
          = (n - 4999) :: List.range' (n - 4998) 5000 := by
        rw [show n - min n 4999 = n - 4999 from by omega,
          show min n 4999 + 1 + 1 = 5000 + 1 from by omega,
          List.range'_succ,
          show n - 4999 + 1 = n - 4998 from by omega]
      rw [hsplit, List.map_cons]
      rw [List.filter_cons_of_neg]
      · rw [List.filter_eq_self.mpr]
        · have e1 : (n : ℕ) - 4998 = (n + 1) - min (n + 1) 4999 := by omega
          have e2 : (5000 : ℕ) = min (n + 1) 4999 + 1 := by omega
          rw [e1, e2]
        · intro p hp
          obtain ⟨k, hk, rfl⟩ := List.mem_map.mp hp
          have hk2 := List.mem_range'_1.mp hk
          show (!decide ((k : ℤ) < ((n + 1 : ℕ) : ℤ) - SNAPSHOT_BUFFER_SIZE + 1)) = true
          simp only [Bool.not_eq_true', decide_eq_false_iff_not, not_lt, SNAPSHOT_BUFFER_SIZE]
          omega
      · show ¬((!decide ((((n - 4999 : ℕ) : ℤ)) < ((n + 1 : ℕ) : ℤ) - SNAPSHOT_BUFFER_SIZE + 1)) = true)
        simp only [Bool.not_eq_true', decide_eq_false_iff_not, not_lt, SNAPSHOT_BUFFER_SIZE]
        omega

/-- C4: with capacity 5000, after saving one snapshot per frame for
frames `0..N` with `N > capacity`, `restore(0)` fails, `restore(N)`
succeeds, every frame at or above `maxFrame - capacity + 1` is still
stored (only strictly older frames are ever evicted), and a save evicts
nothing unless the stored frame count exceeds the capacity. -/
theorem history_eviction_bounds (st : ℕ → SimState) (now : ℕ → ℝ) (N : ℕ) (s : SimState)
    (hN : 5000 < N) : evictionBoundsHold st now N s := by
  have hsave := saveUpTo_eq st now N
  unfold evictionBoundsHold
  refine ⟨?_, ?_, ?_, ?_, ?_⟩
  · unfold restoreSimulationState
    rw [if_neg (by norm_num : ¬((0 : ℤ) < 0)), hsave]
    rw [show (0 : ℤ) = ((0 : ℕ) : ℤ) from rfl, lookupFrame_range'_map st now _ _ 0]
    rw [if_neg (by omega)]
  · unfold restoreSimulationState
    rw [if_neg (by omega : ¬((N : ℤ) < 0)), hsave]
    rw [lookupFrame_range'_map st now _ _ N, if_pos (by omega)]
  · intro k hk1 hk2
    have hk1' : (N : ℤ) - 5000 + 1 ≤ (k : ℤ) := hk1
    rw [hsave]
    rw [lookupFrame_range'_map st now _ _ k, if_pos (by omega)]
    simp
  · intro h f s2 n2 hlen
    unfold saveSimulationState
    rw [if_neg (not_lt.mpr hlen)]
  · intro h f s2 n2 k hkne hk
    unfold saveSimulationState
    simp only []
    split_ifs with hsz
    · show lookupFrame (List.filter _ (mapSet h.entries f _)) k = lookupFrame h.entries k
      rw [lookupFrame_filter_keep]
      · exact lookupFrame_mapSet_ne h.entries f k _ hkne
      · intro p hp
        rw [hp]
        simp only [Bool.not_eq_true', decide_eq_false_iff_not, not_lt]
        exact hk
    · exact lookupFrame_mapSet_ne h.entries f k _ hkne

/-- Witness for C4 at `N = 5001`. -/
theorem history_eviction_bounds_witness :
    5000 < 5001 ∧
    evictionBoundsHold (fun _ => sampleState) (fun _ => 0) 5001 sampleState :=
  ⟨by norm_num,
    history_eviction_bounds (fun _ => sampleState) (fun _ => 0) 5001 sampleState
      (by norm_num)⟩

end

end BallSim
